import Mathlib

/-!
# Verification of the lecpa-agent ingestion-and-retrieval pipeline

Shallow embedding of the pipeline components of the `lecpa-agent`
repository, together with proofs and refutations of the frozen claims
about its specification.

Python strings are modelled as `List Char`; machine integers as
`Nat`/`Int`; database state as explicit record fields with unique
constraints checked at insertion; fallible code returns `Except`.
-/

set_option maxRecDepth 10000

namespace Lecpa

/-! ## Python string primitives

Character-level models of the `str` operations used by the sources.
-/

/-- Characters treated as whitespace by Python's `str.strip()`
(space, tab, newline, carriage return, vertical tab, form feed;
non-ASCII Unicode whitespace is not modelled). -/
def pyIsSpace (c : Char) : Bool :=
  c == ' ' || c == '\t' || c == '\n' || c == '\r' ||
    c == Char.ofNat 11 || c == Char.ofNat 12

/-- Python `s.strip()`: drop leading and trailing whitespace. -/
def pyStrip (s : List Char) : List Char :=
  ((s.dropWhile pyIsSpace).reverse.dropWhile pyIsSpace).reverse

/-- Value of a run of digit characters. -/
def digitsToNat (ds : List Char) : Nat :=
  ds.foldl (fun acc c => acc * 10 + (c.toNat - 48)) 0

/-- `FileArrivedResponse` (pydantic model shared by agent and server). -/
structure FileArrivedResponse where
  status : String
  document_id : Option Nat := none
  queue_item_id : Option Nat := none
  existing_document_id : Option Nat := none
  message : String
  deriving Repr, DecidableEq

/-- The outcome of one underlying `client.post` + `raise_for_status`
attempt: a parsed success response, an `httpx.HTTPStatusError` with its
status code, or a transient `httpx.NetworkError`/`TimeoutException`. -/
inductive AttemptOutcome where
  | success (resp : FileArrivedResponse)
  | httpStatus (code : Nat)
  | transient
  deriving Repr, DecidableEq

/-- The structured response built in the `except httpx.HTTPStatusError`
handler of `notify_file_arrived`. -/
def httpErrorResponse (code : Nat) : FileArrivedResponse :=
  { status := "error", message := "API error: " ++ toString code }

/-- What the caller of `notify_file_arrived` observes: a returned
response, or the `tenacity.RetryError` raised after the retry budget is
exhausted. -/
inductive CallResult where
  | ok (r : FileArrivedResponse)
  | retryError
  deriving Repr, DecidableEq

/-- tenacity `wait_exponential(multiplier=1, min=1, max=10)`: the sleep
before the retry following attempt number `n` is `2^n` seconds clamped
into `[1, 10]`. -/
def waitExponential (n : Nat) : Nat := max 1 (min 10 (2 ^ n))

/-- One run of the tenacity-wrapped body, starting at 1-based attempt
number `attemptNum` with `remaining` attempts allowed; `outcome n` is
what attempt `n` does.  A success returns the parsed response; an
`HTTPStatusError` is caught inside the body (so never retried) and
returns the structured error response; a transient error escapes the
body and is retried until `stop_after_attempt` trips, after which
`RetryError` is raised.  Also returns the list of backoff sleeps. -/
def runNotify (outcome : Nat → AttemptOutcome) :
    Nat → Nat → CallResult × List Nat
  | _, 0 => (.retryError, [])
  | attemptNum, remaining + 1 =>
    match outcome attemptNum with
    | .success resp => (.ok resp, [])
    | .httpStatus code => (.ok (httpErrorResponse code), [])
    | .transient =>
      if remaining = 0 then (.retryError, [])
      else
        let rest := runNotify outcome (attemptNum + 1) remaining
        (rest.1, waitExponential attemptNum :: rest.2)

/-- `notify_file_arrived` as observed by its caller, with the configured
attempt budget of 3. -/
def notify_file_arrived (outcome : Nat → AttemptOutcome) :
    CallResult × List Nat :=
  runNotify outcome 1 3

/-! ## Data model (`src/apps/api/database/models.py`)

Rows are records; `uuid4` identifiers are modelled by a per-database
`Nat` counter; timestamps are abstract `Nat` instants.  Unique
constraints are enforced by checked insertion helpers returning
`Except DbError`.  Columns not read by any claim (audit timestamps,
embedding metadata, reviewer notes, queue payloads) are omitted.
-/

/-- `Document` row, with the fields the ingest router and the search
service read. -/
structure Document where
  id : Nat
  case_id : Nat
  filename : String
  storage_key : String
  mime_type : String
  file_size : Nat
  nas_relative_path : Option String
  nas_full_path : Option String
  is_permanent : Bool
  folder_tag : Option String
  file_hash : Option String
  tags : List String
  processing_status : String
  deleted_at : Option Nat
  last_seen_at : Option Nat
  deriving Repr, DecidableEq

/-- `Client` row (code, approval state). -/
structure ClientRec where
  id : Nat
  client_code : String
  approval_status : String
  deriving Repr, DecidableEq

/-- `Case` row (`tax_year = 0` is the sentinel used for permanent
cases). -/
structure CaseRec where
  id : Nat
  client_id : Nat
  tax_year : Int
  is_permanent : Bool
  deriving Repr, DecidableEq

/-- `SyncQueueItem` row; `nas_path` carries a database-level unique
constraint. -/
structure QueueItem where
  id : Nat
  item_type : String
  nas_path : String
  status : String
  auto_approve_at : Nat
  deriving Repr, DecidableEq

/-- `DocumentChunk` row as read by hybrid search; `has_embedding` models
`embedding IS NOT NULL`. -/
structure DocumentChunk where
  id : Nat
  document_id : Nat
  content : String
  page_start : Int
  page_end : Int
  chunk_index : Nat
  has_embedding : Bool
  deriving Repr, DecidableEq

/-- The database state touched by the ingest router. -/
structure Db where
  documents : List Document
  clients : List ClientRec
  cases : List CaseRec
  queue_items : List QueueItem
  next_id : Nat
  deriving Repr, DecidableEq

/-- Constraint violations surfaced by the store on `commit`. -/
inductive DbError where
  | integrityError
  deriving Repr, DecidableEq

/-- Queue-item insert checked against the unique constraint on
`SyncQueueItem.nas_path`. -/
def insertQueueItemChecked (db : Db) (qi : QueueItem) : Except DbError Db :=
  if db.queue_items.any (fun q => q.nas_path == qi.nas_path) then
    .error .integrityError
  else
    .ok { db with queue_items := db.queue_items ++ [qi], next_id := db.next_id + 1 }

/-- Document insert checked against the unique constraints on
`storage_key` and `nas_full_path`. -/
def insertDocumentChecked (db : Db) (d : Document) : Except DbError Db :=
  if db.documents.any (fun x =>
      x.storage_key == d.storage_key ||
        (x.nas_full_path.isSome && x.nas_full_path == d.nas_full_path)) then
    .error .integrityError
  else
    .ok { db with documents := db.documents ++ [d], next_id := db.next_id + 1 }

/-! ## Ingest router (`src/apps/api/routers/ingest.py`) -/

/-- `ParsedInfo` as received by the server from the sync agent. -/
structure ParsedInfo where
  client_code : Option String := none
  client_name : Option String := none
  client_type : Option String := none
  year : Option Int := none
  folder_tag : Option String := none
  is_permanent : Bool := false
  relative_path : String := ""
  detected_tags : List String := []
  deriving Repr, DecidableEq

/-- Request body of `POST /ingest/file-arrived`. -/
structure FileArrivedRequest where
  nas_path : String
  file_size : Nat
  file_hash : String
  modified_time : Nat
  parsed_info : ParsedInfo
  deriving Repr, DecidableEq

/-- Response of `POST /ingest/file-deleted`. -/
structure FileDeletedResponse where
  status : String
  document_id : Option Nat := none
  retention_until : Option Nat := none
  message : String
  deriving Repr, DecidableEq

/-- `AUTO_APPROVE_HOURS` default. -/
def AUTO_APPROVE_HOURS : Nat := 4

/-- `SOFT_DELETE_RETENTION_DAYS` default. -/
def SOFT_DELETE_RETENTION_DAYS : Nat := 90

/-- Python truthiness test `not s` for an optional string: true for
`None` and for the empty string. -/
def pyFalsyOptStr : Option String → Bool
  | none => true
  | some s => s == ""

/-- Python `s.split(sep)` for a one-character separator. -/
def splitChar (sep : Char) : List Char → List (List Char)
  | [] => [[]]
  | c :: rest =>
    if c = sep then [] :: splitChar sep rest
    else
      match splitChar sep rest with
      | [] => [[c]]
      | l :: ls => (c :: l) :: ls

/-- Join segments back with `/`. -/
def joinSlash : List (List Char) → List Char
  | [] => []
  | [l] => l
  | l :: ls => l ++ '/' :: joinSlash ls

/-- Python `s.rsplit("/", k)[0]`: everything before the `k`-th slash
counted from the right (the whole string when there are fewer
separators). -/
def rsplitHead (k : Nat) (s : String) : String :=
  let parts := splitChar '/' s.toList
  ⟨joinSlash (parts.take (parts.length - min k (parts.length - 1)))⟩

/-- Python `s.split("/")[-1]`. -/
def lastSegment (s : String) : String :=
  ⟨(splitChar '/' s.toList).getLastD []⟩

/-- Python `h.replace("sha256:", "")`: delete every occurrence of the
literal `sha256:`. -/
def stripSha256 : List Char → List Char
  | 's' :: 'h' :: 'a' :: '2' :: '5' :: '6' :: ':' :: rest => stripSha256 rest
  | c :: rest => c :: stripSha256 rest
  | [] => []

/-- String version of `stripSha256`. -/
def stripSha256Str (s : String) : String := ⟨stripSha256 s.toList⟩

/-- SQL `LIKE "%<code>_%"`: some occurrence of `code` followed by at
least one further character (`_` is the single-character wildcard). -/
def likeClientCode (code : String) (s : String) : Bool :=
  go code.toList s.toList
where
  go (c : List Char) : List Char → Bool
    | [] => false
    | x :: rest => (c.isPrefixOf (x :: rest) && c.length < (x :: rest).length) || go c rest

/-- `_guess_mime_type` from the ingest router. -/
def guess_mime_type (path : String) : String :=
  if path.toList.contains '.' then
    let ext : String := ⟨(splitChar '.' path.toList).getLastD []⟩
    let ext := ext.toLower
    if ext == "pdf" then "application/pdf"
    else if ext == "doc" then "application/msword"
    else if ext == "docx" then
      "application/vnd.openxmlformats-officedocument.wordprocessingml.document"
    else if ext == "xls" then "application/vnd.ms-excel"
    else if ext == "xlsx" then
      "application/vnd.openxmlformats-officedocument.spreadsheetml.sheet"
    else if ext == "png" then "image/png"
    else if ext == "jpg" then "image/jpeg"
    else if ext == "jpeg" then "image/jpeg"
    else if ext == "txt" then "text/plain"
    else "application/octet-stream"
  else "application/octet-stream"

/-- `_get_or_queue_client`: return the approved client, or `none` after
queueing (or failing to queue) a new client approval item.  The source
inserts the new `SyncQueueItem` without checking for an existing item
for the same folder, so the checked insert can surface
`IntegrityError`. -/
def get_or_queue_client (db : Db) (client_code : String) (nas_path : String)
    (now : Nat) : Except DbError (Option ClientRec × Db) :=
  match db.clients.find? (fun c => c.client_code == client_code) with
  | some c =>
    if c.approval_status == "approved" then .ok (some c, db) else .ok (none, db)
  | none =>
    let qi : QueueItem := {
      id := db.next_id,
      item_type := "client",
      nas_path := rsplitHead 2 nas_path ++ "/",
      status := "pending",
      auto_approve_at := now + AUTO_APPROVE_HOURS }
    (insertQueueItemChecked db qi).map (fun db2 => (none, db2))

/-- `_get_or_queue_case`: permanent files get an auto-created permanent
case; year files reuse an existing case or queue a case approval item
(again without an existence check on the queue path). -/
def get_or_queue_case (db : Db) (client : ClientRec) (year : Option Int)
    (is_permanent : Bool) (nas_path : String) (now : Nat) (currentYear : Int) :
    Except DbError (Option CaseRec × Db) :=
  if is_permanent then
    match db.cases.find? (fun cs => cs.client_id == client.id && cs.is_permanent) with
    | some cs => .ok (some cs, db)
    | none =>
      let cs : CaseRec := {
        id := db.next_id, client_id := client.id, tax_year := 0,
        is_permanent := true }
      .ok (some cs,
        { db with cases := db.cases ++ [cs], next_id := db.next_id + 1 })
  else
    let y := year.getD currentYear
    match db.cases.find? (fun cs => cs.client_id == client.id && cs.tax_year == y) with
    | some cs => .ok (some cs, db)
    | none =>
      let qi : QueueItem := {
        id := db.next_id,
        item_type := "case",
        nas_path := rsplitHead 1 nas_path ++ "/",
        status := "pending",
        auto_approve_at := now + AUTO_APPROVE_HOURS }
      (insertQueueItemChecked db qi).map (fun db2 => (none, db2))

/-- `POST /ingest/file-arrived` (`file_arrived` in `ingest.py`).
`currentYear` stands for `datetime.now().year`.  Note the hash-dedup
lookup compares the raw incoming `request.file_hash` against the stored
`Document.file_hash`, while document creation stores the hash with the
`sha256:` prefix stripped. -/
def file_arrived (now : Nat) (currentYear : Int) (req : FileArrivedRequest)
    (db : Db) : Except DbError (FileArrivedResponse × Db) :=
  let parsed := req.parsed_info
  if pyFalsyOptStr parsed.client_code then
    .ok ({ status := "error", message := "No client code in parsed path" }, db)
  else
    let code := parsed.client_code.getD ""
    match db.documents.find? (fun d => d.nas_full_path == some req.nas_path) with
    | some existing =>
      let docs := db.documents.map (fun d =>
        if d.nas_full_path == some req.nas_path then
          { d with last_seen_at := some now } else d)
      .ok ({ status := "duplicate", existing_document_id := some existing.id,
             message := "File already indexed" }, { db with documents := docs })
    | none =>
      let hashMatch :=
        if req.file_hash ≠ "" then
          db.documents.find? (fun d => d.file_hash == some req.file_hash)
        else none
      match hashMatch with
      | some d =>
        .ok ({ status := "duplicate", existing_document_id := some d.id,
               message := "File with same content already indexed" }, db)
      | none =>
        match get_or_queue_client db code req.nas_path now with
        | .error e => .error e
        | .ok (none, db1) =>
          let qid := (db1.queue_items.find? (fun q =>
              q.item_type == "client" && likeClientCode code q.nas_path)).map (·.id)
          .ok ({ status := "pending_approval", queue_item_id := qid,
                 message := "Client requires approval before ingestion" }, db1)
        | .ok (some client, db1) =>
          match get_or_queue_case db1 client parsed.year parsed.is_permanent
              req.nas_path now currentYear with
          | .error e => .error e
          | .ok (none, db2) =>
            .ok ({ status := "pending_approval",
                   message := "Case requires approval before ingestion" }, db2)
          | .ok (some caseRec, db2) =>
            let doc : Document := {
              id := db2.next_id,
              case_id := caseRec.id,
              filename := lastSegment req.nas_path,
              storage_key := req.nas_path,
              mime_type := guess_mime_type req.nas_path,
              file_size := req.file_size,
              nas_relative_path := some parsed.relative_path,
              nas_full_path := some req.nas_path,
              is_permanent := parsed.is_permanent,
              folder_tag := parsed.folder_tag,
              file_hash :=
                if req.file_hash ≠ "" then some (stripSha256Str req.file_hash)
                else none,
              tags := parsed.detected_tags,
              processing_status := "pending",
              deleted_at := none,
              last_seen_at := some now }
            match insertDocumentChecked db2 doc with
            | .error e => .error e
            | .ok db3 =>
              .ok ({ status := "queued", document_id := some doc.id,
                     message := "Document queued for ingestion" }, db3)

/-- `POST /ingest/file-deleted` (`file_deleted` in `ingest.py`): soft
delete by setting `deleted_at`; nothing else on the document row — in
particular `processing_status` — changes. -/
def file_deleted (now : Nat) (nas_path : String) (db : Db) :
    FileDeletedResponse × Db :=
  match db.documents.find? (fun d => d.nas_full_path == some nas_path) with
  | none =>
    ({ status := "not_found", message := "Document not found in database" }, db)
  | some d =>
    let docs := db.documents.map (fun x =>
      if x.nas_full_path == some nas_path then { x with deleted_at := some now }
      else x)
    ({ status := "soft_deleted", document_id := some d.id,
       retention_until := some (now + SOFT_DELETE_RETENTION_DAYS),
       message := "Document soft-deleted" }, { db with documents := docs })

/-! ## Hybrid search (`src/apps/api/services/search.py`) -/

/-- A row of the joined search query: a chunk with its document, the
owning case's client, and the two store-computed score inputs —
`1 - cosine_distance(embedding, query_embedding)` and the `ts_rank`
lexical score — modelled as arbitrary rationals supplied by the store. -/
structure SearchRow where
  chunk : DocumentChunk
  doc : Document
  case_client_id : Nat
  client_code : String
  vec_score : Rat
  fts_score : Rat
  deriving Repr, DecidableEq

/-- `Citation` (`src/packages/shared/models/document.py`). -/
structure Citation where
  document_id : Nat
  document_filename : String
  chunk_id : Nat
  page_start : Int
  page_end : Int
  snippet : String
  relevance_score : Rat
  rank : Nat
  deriving Repr, DecidableEq

/-- The `WHERE` clauses applied to every search, before optional
filters: document fully `ready` and chunk embedding present.  The
soft-delete column `deleted_at` is not consulted. -/
def eligibleRow (r : SearchRow) : Bool :=
  r.doc.processing_status == "ready" && r.chunk.has_embedding

/-- Optional search filters: case id, client code, tag overlap. -/
def matchesFilters (case_id : Option Nat) (client_code : Option String)
    (doc_types : Option (List String)) (r : SearchRow) : Bool :=
  (match case_id with | none => true | some cid => r.doc.case_id == cid) &&
  (match client_code with | none => true | some cc => r.client_code == cc) &&
  (match doc_types with
   | none => true
   | some dts => r.doc.tags.any (fun t => dts.contains t))

/-- `combined score = vector_score * vector_weight + fts_score *
fts_weight`. -/
def combinedScore (vw fw : Rat) (r : SearchRow) : Rat :=
  r.vec_score * vw + r.fts_score * fw

/-- Descending insertion by score (`ORDER BY score DESC`). -/
def insertDesc (score : SearchRow → Rat) (r : SearchRow) :
    List SearchRow → List SearchRow
  | [] => [r]
  | x :: xs => if score x < score r then r :: x :: xs else x :: insertDesc score r xs

/-- Sort rows by descending score. -/
def sortDesc (score : SearchRow → Rat) : List SearchRow → List SearchRow
  | [] => []
  | x :: xs => insertDesc score x (sortDesc score xs)

/-- Clamp of the combined score used for the reported relevance:
`min(1.0, max(0.0, score))`. -/
def clamp01 (x : Rat) : Rat := min 1 (max 0 x)

/-- Build the citation for a search row at 1-based rank `rank`. -/
def citationOf (vw fw : Rat) (rank : Nat) (r : SearchRow) : Citation :=
  { document_id := r.chunk.document_id,
    document_filename := r.doc.filename,
    chunk_id := r.chunk.id,
    page_start := r.chunk.page_start,
    page_end := r.chunk.page_end,
    snippet := ⟨r.chunk.content.toList.take 500⟩,
    relevance_score := clamp01 (combinedScore vw fw r),
    rank := rank }

/-- `HybridSearchService.search`: filter eligible rows, apply optional
filters, order by combined score descending, truncate to `top_k`, and
annotate with 1-based ranks, 500-character snippets and the clamped
relevance. -/
def search (rows : List SearchRow) (case_id : Option Nat)
    (client_code : Option String) (doc_types : Option (List String))
    (top_k : Nat) (vw fw : Rat) : List Citation :=
  let filtered := rows.filter (fun r =>
    eligibleRow r && matchesFilters case_id client_code doc_types r)
  let ordered := (sortDesc (combinedScore vw fw) filtered).take top_k
  ordered.enum.map (fun p => citationOf vw fw (p.1 + 1) p.2)

/-! ## Folder Parser (`src/services/nas-sync-agent/nas_sync/parser.py`)

Filesystem paths are modelled as lists of segments (pathlib `parts`
without the root marker); `relative_to` is segment-prefix removal.  The
client, year and document-tag regexes are the concrete defaults of
`get_default_config` (`nas_sync/config.py`), embedded as recognizers;
skip patterns (arbitrary globs) and the special-folder table remain
configuration parameters.  Regex `.` is modelled as "any character other
than a newline" and `$` as end-of-string (also accepting one trailing
newline where the source pattern ends in `$`).
-/

/-- `ParsedPath` (`nas_sync/models.py`). -/
structure ParsedPath where
  client_code : Option String := none
  client_name : Option String := none
  client_type : Option String := none
  year : Option Int := none
  folder_tag : Option String := none
  is_permanent : Bool := false
  relative_path : String := ""
  detected_tags : List String := []
  is_valid : Bool := false
  skip_reason : Option String := none
  deriving Repr, DecidableEq

/-- One entry of the `special_folders` table. -/
structure SpecialFolderCfg where
  folder : String
  tag : String
  is_permanent : Bool
  deriving Repr, DecidableEq

/-- The configurable parts of `ParsingConfig` that this embedding keeps
as parameters. -/
structure ParsingCfg where
  skip_patterns : List String
  special_folders : List SpecialFolderCfg
  deriving Repr, DecidableEq

/-- The characters escaped by `_glob_to_regex`. -/
def regexSpecialChars : List Char :=
  ['.', '^', '$', '+', '{', '}', '[', ']', '|', '(', ')', '\\']

/-- `_glob_to_regex`: the regex text produced from a glob pattern (used
verbatim inside the `skip_reason` message). -/
def globToRegex (p : List Char) : List Char :=
  (p.map (fun c =>
    if regexSpecialChars.contains c then ['\\', c]
    else if c = '*' then ['.', '*']
    else if c = '?' then ['.']
    else [c])).flatten

/-- Helper of `globPrefixMatch`: a `*` (regex `.*`) tries the remaining
pattern on every suffix reachable through non-newline characters. -/
def globStar (matchRest : List Char → Bool) : List Char → Bool
  | [] => matchRest []
  | c :: rest => matchRest (c :: rest) || (c ≠ '\n' && globStar matchRest rest)

/-- `re.match` of the converted glob against a filename: does some
prefix of `s` match the glob?  `*` matches any run of non-newline
characters (regex `.*`), `?` one non-newline character, anything else
itself. -/
def globPrefixMatch : List Char → List Char → Bool
  | [], _ => true
  | c :: ps, s =>
    if c = '*' then globStar (globPrefixMatch ps) s
    else if c = '?' then
      match s with
      | d :: rest => d ≠ '\n' && globPrefixMatch ps rest
      | [] => false
    else
      match s with
      | d :: rest => c == d && globPrefixMatch ps rest
      | [] => false

/-- Body matched by a trailing `(?P<name>.+)$`: everything up to the end
(or up to one final newline), required non-empty and newline-free. -/
def matchDotPlusEnd (rest : List Char) : Option (List Char) :=
  let body := if rest.getLast? = some '\n' then rest.dropLast else rest
  if body ≠ [] ∧ ¬ body.contains '\n' then some body else none

/-- One default client pattern
`^(?P<code>L\d{3})_(?P<name>.+)$` for a leading digit `L`. -/
def matchClientLead (lead : Char) (folder : List Char) :
    Option (String × String) :=
  match folder with
  | c0 :: c1 :: c2 :: c3 :: c4 :: rest =>
    if c0 = lead ∧ c1.isDigit ∧ c2.isDigit ∧ c3.isDigit ∧ c4 = '_' then
      (matchDotPlusEnd rest).map (fun body => (⟨[c0, c1, c2, c3]⟩, ⟨body⟩))
    else none
  | _ => none

/-- `_parse_client_folder` under the default `client_patterns`:
`1xxx_Name` is an individual, `2xxx_Name` a business. -/
def parse_client_folder (folder : String) :
    Option (String × String × String) :=
  match matchClientLead '1' folder.toList with
  | some (code, name) => some (code, name, "individual")
  | none =>
    match matchClientLead '2' folder.toList with
    | some (code, name) => some (code, name, "business")
    | none => none

/-- The default `year_pattern` `^(?P<year>20\d{2})$`. -/
def matchYear (folder : List Char) : Option Int :=
  match folder with
  | '2' :: '0' :: d1 :: d2 :: tail =>
    if d1.isDigit ∧ d2.isDigit ∧ (tail = [] ∨ tail = ['\n']) then
      some (2000 + 10 * ((d1.toNat : Int) - 48) + ((d2.toNat : Int) - 48))
    else none
  | _ => none

/-- Dictionary lookup `self.special_folders[folder_name]` (a later
duplicate key overrides an earlier one, as in a dict comprehension). -/
def findSpecialFolder (cfg : ParsingCfg) (name : String) :
    Option SpecialFolderCfg :=
  cfg.special_folders.reverse.find? (fun f => f.folder == name)

/-- `_parse_second_level`: `(year, folder_tag, is_permanent)`. -/
def parse_second_level (cfg : ParsingCfg) (folder : String) :
    Option Int × Option String × Bool :=
  match matchYear folder.toList with
  | some y => (some y, none, false)
  | none =>
    match findSpecialFolder cfg folder with
    | some sf => (none, some sf.tag, sf.is_permanent)
    | none => (none, none, false)

/-- Case-insensitive prefix test against a pre-lowercased needle. -/
def startsWithCI : List Char → List Char → Bool
  | [], _ => true
  | _ :: _, [] => false
  | n :: ns, h :: hs => n == h.toLower && startsWithCI ns hs

/-- Case-insensitive substring search (`re.search` of a literal under
`(?i)`). -/
def containsCI (needle : List Char) : List Char → Bool
  | [] => startsWithCI needle []
  | h :: t => startsWithCI needle (h :: t) || containsCI needle t

/-- Case-sensitive substring search (`re.search` of a literal). -/
def containsSub (needle : List Char) : List Char → Bool
  | [] => needle.isPrefixOf []
  | h :: t => needle.isPrefixOf (h :: t) || containsSub needle t

/-- `re.search("(?i)L-?D", s)` for a letter `L` and digit `D`: the
letter, an optional dash, then the digit — covering the default `w-?2`
and `k-?1|k1p|k1s` tag patterns (the `k1p`/`k1s` alternatives are
subsumed by `k-?1`). -/
def searchLetterDashDigit (letter digit : Char) : List Char → Bool
  | [] => false
  | c :: rest =>
    (c.toLower == letter &&
      (match rest with
       | x :: _ => x == digit
       | [] => false) ||
     c.toLower == letter &&
      (match rest with
       | '-' :: x :: _ => x == digit
       | _ => false)) ||
    searchLetterDashDigit letter digit rest

/-- `\s?\d+` immediately after a matched two-letter prefix: a digit, or
one whitespace character followed by a digit. -/
def optSpaceDigit : List Char → Bool
  | [] => false
  | d :: rest =>
    d.isDigit || (pyIsSpace d && (match rest with
      | e :: _ => e.isDigit
      | [] => false))

/-- `re.search("(?i)cp\s?\d+|lt\s?\d+", s)`. -/
def searchCpLt : List Char → Bool
  | [] => false
  | c :: rest =>
    (match rest with
     | y :: rest2 =>
       ((c.toLower == 'c' && y.toLower == 'p') ||
        (c.toLower == 'l' && y.toLower == 't')) && optSpaceDigit rest2
     | [] => false) ||
    searchCpLt rest

/-- `_detect_tags` under the default `document_tags` rules; every rule
that fires contributes its tag, in configuration order. -/
def detect_tags (filename : List Char) : List String :=
  (if searchLetterDashDigit 'w' '2' filename then ["W2"] else []) ++
  (if containsSub "1099".toList filename then ["1099"] else []) ++
  (if searchLetterDashDigit 'k' '1' filename then ["K1"] else []) ++
  (if containsSub "1098".toList filename then ["1098"] else []) ++
  (if containsCI "notice".toList filename || searchCpLt filename then
    ["IRS_NOTICE"] else []) ++
  (if containsCI "transcript".toList filename then ["TRANSCRIPT"] else [])

/-- Join path segments for `str(...)` of a relative path. -/
def joinSegs (segs : List String) : String := String.intercalate "/" segs

/-- `FolderParser.parse`: total by construction (the source wraps its
only throwing operation, `relative_to`, in try/except, and the default
patterns carry the `code`/`name` groups read by
`_parse_client_folder`). -/
def parse (cfg : ParsingCfg) (root : List String) (path : List String) :
    ParsedPath :=
  if root.isPrefixOf path then
    let parts := path.drop root.length
    if parts.length < 2 then
      { relative_path := joinSegs parts, is_valid := false,
        skip_reason := some "Path too short (need client folder + file)" }
    else
      let filename := path.getLastD ""
      match cfg.skip_patterns.find?
          (fun p => globPrefixMatch p.toList filename.toList) with
      | some p =>
        { relative_path := joinSegs parts, is_valid := false,
          skip_reason :=
            some ("Matches skip pattern: " ++ (⟨globToRegex p.toList⟩ : String)) }
      | none =>
        let clientFolder := parts.headD ""
        match parse_client_folder clientFolder with
        | none =>
          { relative_path := joinSegs parts, is_valid := false,
            skip_reason :=
              some ("Invalid client folder format: " ++ clientFolder) }
        | some (code, name, ctype) =>
          let sl :=
            match parts.drop 1 with
            | second :: _ => parse_second_level cfg second
            | [] => (none, none, false)
          { client_code := some code,
            client_name := some name,
            client_type := some ctype,
            year := sl.1,
            folder_tag := sl.2.1,
            is_permanent := sl.2.2,
            relative_path := joinSegs (parts.drop 1),
            detected_tags := detect_tags filename.toList,
            is_valid := true,
            skip_reason := none }
  else
    { relative_path := joinSegs path, is_valid := false,
      skip_reason := some "Not under NAS root" }

/-- The default `skip_patterns` and `special_folders` of
`get_default_config` (`nas_sync/config.py`). -/
def defaultParsing : ParsingCfg :=
  { skip_patterns :=
      ["*.7z", "*.zip", "*.rar", "*.lnk", ".DS_Store", "Thumbs.db",
        "Icon*", "*.tmp", "~$*"],
    special_folders :=
      [⟨"Permanent", "permanent", true⟩,
       ⟨"Tax Notice", "tax_notice", false⟩,
       ⟨"Tax Transcript", "transcript", false⟩,
       ⟨"Tax Emails", "emails", false⟩,
       ⟨"Paperworks", "paperwork", false⟩,
       ⟨"Invoice", "invoice", false⟩,
       ⟨"IRS Notices", "irs_notice", false⟩] }

/-- The default NAS root `/volume1/LeCPA/ClientFiles` as segments. -/
def defaultRoot : List String := ["volume1", "LeCPA", "ClientFiles"]

/-- pathlib `Path(name).suffix`: from the last dot of the final
component, provided that dot is neither leading nor trailing. -/
def pySuffix (name : List Char) : List Char :=
  match name.reverse.findIdx? (· = '.') with
  | some j =>
    let i := name.length - 1 - j
    if 0 < i ∧ i < name.length - 1 then name.drop i else []
  | none => []

/-- `FolderParser.is_lnk_file`: `Path(path).suffix.lower() == ".lnk"`. -/
def is_lnk_file (name : String) : Bool :=
  (⟨(pySuffix name.toList).map Char.toLower⟩ : String) == ".lnk"

/-- How `FullScanner._process_file` (and equally
`DebouncedHandler._process_file` in `watcher.py`) disposes of one file:
counted as skipped when the parse is invalid, handed to the shortcut
resolver when it is a `.lnk` file, otherwise queued via the
file-arrived notification. -/
inductive ScanAction where
  | skippedInvalid (reason : Option String)
  | shortcutRoute
  | queueDocument
  deriving Repr, DecidableEq

/-- The routing decision of `FullScanner._process_file`: the
`parsed.is_valid` test precedes the `is_lnk_file` branch. -/
def scannerProcessFile (cfg : ParsingCfg) (root : List String)
    (path : List String) : ScanAction :=
  let parsed := parse cfg root path
  if !parsed.is_valid then .skippedInvalid parsed.skip_reason
  else if is_lnk_file (path.getLastD "") then .shortcutRoute
  else .queueDocument

/-! ## Folder Parser over configurable regex patterns

`FolderParser.parse` reads its client patterns and year pattern from the
configuration; `ParsingConfig` (`nas_sync/models.py`) validates nothing
about them, so the parser also accepts patterns without the `code`,
`name` or `year` capture groups, or whose `year` group can capture
non-numeric text.  On such configurations `parse` can raise: IndexError
at `match.group("code")` (parser.py:189) and ValueError at
`int(year_match.group("year"))` (parser.py:209).  To represent these
paths, patterns are embedded as a small regex AST with a backtracking
matcher (leftmost alternative, greedy repetition — Python preference
order) and named-group capture, and the parser as an `Except`-valued
function `parseC`.  Document-tag patterns stay fixed at the defaults:
`_detect_tags` only calls `pattern.search` and reads no groups, so no
tag configuration can raise.
-/

/-- Exceptions observable from `FolderParser.parse`. -/
inductive PyError where
  | indexError
  | valueError
  | typeError
  deriving Repr, DecidableEq

/-- Regex fragment sufficient for the configured anchored patterns:
literals, `\d`, `.` (non-newline), concatenation, alternation, `+`,
named groups `(?P<n>…)`, and `$` (end of string or before one final
newline).  `re.match` anchors at the start only, so no start node is
needed. -/
inductive Rx where
  | lit (c : Char)
  | digit
  | dot
  | eos
  | seq (a b : Rx)
  | alt (a b : Rx)
  | plus (a : Rx)
  | group (name : String) (a : Rx)
  deriving Repr, DecidableEq

/-- Captured groups, in capture-completion order (a later entry is a
later assignment, as in Python's match object). -/
abbrev Caps := List (String × List Char)

/-- Greedy `+`: try one more repetition before stopping, preferring
deeper repetitions first; `fuel` bounds the repetition depth and is
adequate because a repetition that consumes nothing stops (as in
Python, where a zero-width repeat does not loop). -/
def plusMatches (rec : List Char → List (Caps × List Char)) :
    Nat → List Char → List (Caps × List Char)
  | 0, _ => []
  | fuel + 1, s =>
    (rec s).flatMap (fun p =>
      if p.2.length < s.length then
        ((plusMatches rec fuel p.2).map (fun q => (p.1 ++ q.1, q.2))) ++ [p]
      else [p])

/-- All matches of a pattern against a prefix of `s`, as
`(captures, remaining suffix)` pairs in the backtracking engine's
preference order (first alternative first, longer repetition first). -/
def rxMatches : Rx → List Char → List (Caps × List Char)
  | .lit c, s =>
    match s with
    | x :: r => if x = c then [([], r)] else []
    | [] => []
  | .digit, s =>
    match s with
    | x :: r => if x.isDigit then [([], r)] else []
    | [] => []
  | .dot, s =>
    match s with
    | x :: r => if x ≠ '\n' then [([], r)] else []
    | [] => []
  | .eos, s => if s = [] ∨ s = ['\n'] then [([], s)] else []
  | .seq a b, s =>
    (rxMatches a s).flatMap (fun p =>
      (rxMatches b p.2).map (fun q => (p.1 ++ q.1, q.2)))
  | .alt a b, s => rxMatches a s ++ rxMatches b s
  | .plus a, s => plusMatches (rxMatches a) (s.length + 1) s
  | .group n a, s =>
    (rxMatches a s).map (fun p =>
      (p.1 ++ [(n, s.take (s.length - p.2.length))], p.2))

/-- `pattern.match(s)`: the first match in preference order, or `None`. -/
def rxMatch (pat : Rx) (s : List Char) : Option Caps :=
  match rxMatches pat s with
  | [] => none
  | p :: _ => some p.1

/-- Does a pattern define a group of this name?  (`match.group(n)`
raises IndexError exactly when it does not.) -/
def rxHasGroup (name : String) : Rx → Bool
  | .lit _ | .digit | .dot | .eos => false
  | .seq a b | .alt a b => rxHasGroup name a || rxHasGroup name b
  | .plus a => rxHasGroup name a
  | .group n a => n == name || rxHasGroup name a

/-- The value of a group: its last capture, `None` when the group never
participated in the match. -/
def capLookup (caps : Caps) (name : String) : Option (List Char) :=
  (caps.reverse.find? (fun p => p.1 == name)).map (·.2)

/-- `match.group(name)`: IndexError for an undefined group, otherwise
the (possibly absent) captured text. -/
def pyGroup (pat : Rx) (caps : Caps) (name : String) :
    Except PyError (Option (List Char)) :=
  if rxHasGroup name pat then .ok (capLookup caps name) else .error .indexError

/-- Python `int(str)`: optional surrounding whitespace and sign, then at
least one digit; anything else raises ValueError.  (Digit-group
underscores are not modelled.) -/
def pyInt (s : List Char) : Except PyError Int :=
  match pyStrip s with
  | '-' :: ds =>
    if ds ≠ [] ∧ ds.all (·.isDigit) then .ok (-(digitsToNat ds : Int))
    else .error .valueError
  | '+' :: ds =>
    if ds ≠ [] ∧ ds.all (·.isDigit) then .ok (digitsToNat ds)
    else .error .valueError
  | ds =>
    if ds ≠ [] ∧ ds.all (·.isDigit) then .ok (digitsToNat ds)
    else .error .valueError

/-- The configurable parts of `ParsingConfig` in the regex-level
embedding (document tags stay at the defaults — they cannot raise). -/
structure RegexParsingCfg where
  client_patterns : List (Rx × String)
  year_pattern : Rx
  skip_patterns : List String
  special_folders : List SpecialFolderCfg
  deriving Repr, DecidableEq

/-- `_parse_client_folder` over configured patterns: first matching
pattern wins; `group("code")`/`group("name")` may raise IndexError. -/
def parse_client_folderC (pats : List (Rx × String)) (folder : List Char) :
    Except PyError (Option (List Char) × Option (List Char) × Option String) :=
  match pats with
  | [] => .ok (none, none, none)
  | (pat, ty) :: rest =>
    match rxMatch pat folder with
    | some caps =>
      match pyGroup pat caps "code" with
      | .error e => .error e
      | .ok code =>
        match pyGroup pat caps "name" with
        | .error e => .error e
        | .ok name => .ok (code, name, some ty)
    | none => parse_client_folderC rest folder

/-- `_parse_second_level` over a configured year pattern:
`int(year_match.group("year"))` may raise IndexError (missing group),
TypeError (group did not participate: `int(None)`) or ValueError
(non-numeric capture). -/
def parse_second_levelC (yp : Rx) (sf : List SpecialFolderCfg)
    (folder : String) : Except PyError (Option Int × Option String × Bool) :=
  match rxMatch yp folder.toList with
  | some caps =>
    match pyGroup yp caps "year" with
    | .error e => .error e
    | .ok none => .error .typeError
    | .ok (some ds) =>
      match pyInt ds with
      | .error e => .error e
      | .ok n => .ok (some n, none, false)
  | none =>
    match sf.reverse.find? (fun f => f.folder == folder) with
    | some f => .ok (none, some f.tag, f.is_permanent)
    | none => .ok (none, none, false)

/-- Python truthiness `not client_code` for an optional capture. -/
def pyFalsyCapture : Option (List Char) → Bool
  | none => true
  | some l => l.isEmpty

/-- `FolderParser.parse` over a configurable pattern set: same control
flow as `parse`, but the client-folder and second-level steps may
raise, surfaced as `Except.error`. -/
def parseC (cfg : RegexParsingCfg) (root path : List String) :
    Except PyError ParsedPath :=
  if root.isPrefixOf path then
    let parts := path.drop root.length
    if parts.length < 2 then
      .ok { relative_path := joinSegs parts, is_valid := false,
            skip_reason := some "Path too short (need client folder + file)" }
    else
      let filename := path.getLastD ""
      match cfg.skip_patterns.find?
          (fun p => globPrefixMatch p.toList filename.toList) with
      | some p =>
        .ok { relative_path := joinSegs parts, is_valid := false,
              skip_reason :=
                some ("Matches skip pattern: " ++ (⟨globToRegex p.toList⟩ : String)) }
      | none =>
        let clientFolder := parts.headD ""
        match parse_client_folderC cfg.client_patterns clientFolder.toList with
        | .error e => .error e
        | .ok (code, name, ctype) =>
          if pyFalsyCapture code then
            .ok { relative_path := joinSegs parts, is_valid := false,
                  skip_reason :=
                    some ("Invalid client folder format: " ++ clientFolder) }
          else
            match (match parts.drop 1 with
                   | second :: _ =>
                     parse_second_levelC cfg.year_pattern cfg.special_folders second
                   | [] => .ok (none, none, false)) with
            | .error e => .error e
            | .ok sl =>
              .ok { client_code := code.map (fun l => (⟨l⟩ : String)),
                    client_name := name.map (fun l => (⟨l⟩ : String)),
                    client_type := ctype,
                    year := sl.1,
                    folder_tag := sl.2.1,
                    is_permanent := sl.2.2,
                    relative_path := joinSegs (parts.drop 1),
                    detected_tags := detect_tags filename.toList,
                    is_valid := true,
                    skip_reason := none }
  else
    .ok { relative_path := joinSegs path, is_valid := false,
          skip_reason := some "Not under NAS root" }

/-- The default client pattern `^(?P<code>L\d{3})_(?P<name>.+)$` as a
regex AST, for a leading digit `L`. -/
def clientRxDefault (lead : Char) : Rx :=
  .seq (.group "code" (.seq (.lit lead) (.seq .digit (.seq .digit .digit))))
    (.seq (.lit '_') (.seq (.group "name" (.plus .dot)) .eos))

/-- The default year pattern `^(?P<year>20\d{2})$` as a regex AST. -/
def yearRxDefault : Rx :=
  .seq (.group "year" (.seq (.lit '2') (.seq (.lit '0') (.seq .digit .digit))))
    .eos

/-- The default configuration in the regex-level embedding. -/
def defaultRegexCfg : RegexParsingCfg :=
  { client_patterns :=
      [(clientRxDefault '1', "individual"), (clientRxDefault '2', "business")],
    year_pattern := yearRxDefault,
    skip_patterns := defaultParsing.skip_patterns,
    special_folders := defaultParsing.special_folders }

/-- An accepted client pattern without named groups,
`^1\d{3}_.+$` — `ParsingConfig` imposes no group requirements. -/
def c8NoGroupClientRx : Rx :=
  .seq (.lit '1') (.seq .digit (.seq .digit (.seq .digit
    (.seq (.lit '_') (.seq (.plus .dot) .eos)))))

/-- Default configuration with the group-less client pattern. -/
def c8NoGroupCfg : RegexParsingCfg :=
  { defaultRegexCfg with client_patterns := [(c8NoGroupClientRx, "individual")] }

/-- An accepted year pattern `^(?P<year>20\d{2}|TBD)$` whose `year`
group can capture non-numeric text. -/
def c8TbdYearRx : Rx :=
  .seq (.group "year"
    (.alt (.seq (.lit '2') (.seq (.lit '0') (.seq .digit .digit)))
      (.seq (.lit 'T') (.seq (.lit 'B') (.lit 'D'))))) .eos

/-- Default configuration with the `TBD`-admitting year pattern. -/
def c8TbdYearCfg : RegexParsingCfg :=
  { defaultRegexCfg with year_pattern := c8TbdYearRx }

/-! ## Chunker (`src/services/worker/tasks/embed.py`, `semantic_chunk`)

The loop is embedded with explicit fuel (`none` = fuel exhausted, which
stands for non-termination of the Python loop when no fuel bound
suffices).  Python slice clamping of possibly negative indices is
reproduced.  The `section_header` field, computed from the chunk text
and never read back by the loop, is omitted from the `Chunk` record.
-/

/-- Python `text[a:b]` with `int` indices: negative indices offset from
the end, then both bounds clamp into `[0, len]`. -/
def pySlice (s : List Char) (a b : Int) : List Char :=
  let n : Int := s.length
  let lo := if a < 0 then max (n + a) 0 else min a n
  let hi := if b < 0 then max (n + b) 0 else min b n
  (s.take hi.toNat).drop lo.toNat

/-- Index of the first occurrence of `"\n\n"` (`re.search(r"\n\n", s)`),
as the match start. -/
def findNlNl : List Char → Option Nat
  | '\n' :: '\n' :: _ => some 0
  | _ :: rest => (findNlNl rest).map (· + 1)
  | [] => none

/-- Attempt to read `PAGE <digits>]` directly after an opening `[`. -/
def tryMarker (rest : List Char) : Option Nat :=
  match rest with
  | 'P' :: 'A' :: 'G' :: 'E' :: ' ' :: rest2 =>
    let ds := rest2.takeWhile (·.isDigit)
    if ds ≠ [] then
      match rest2.dropWhile (·.isDigit) with
      | ']' :: _ => some (digitsToNat ds)
      | _ => none
    else none
  | _ => none

/-- `re.findall(r"\[PAGE (\d+)\]", s)`: every captured page number in
order.  Scanning restarts one character after a failed `[`; since a
successful match contains no further `[`, restarting there as well
yields the same non-overlapping match list as the regex engine. -/
def findMarkers : List Char → List Nat
  | [] => []
  | '[' :: rest =>
    (match tryMarker rest with
     | some n => [n]
     | none => []) ++ findMarkers rest
  | _ :: rest => findMarkers rest

/-- `Chunk` dataclass of `embed.py` (without the derived
`section_header`). -/
structure Chunk where
  content : List Char
  page_start : Nat
  page_end : Nat
  chunk_index : Nat
  deriving Repr, DecidableEq

/-- The paragraph-boundary adjustment of the chunk end: when the window
does not already reach the end of the text, the first `"\n\n"` in
`text[max(end-200, pos) : end+200]` moves the end to just past it. -/
def paraAdjust (text : List Char) (pos endPos : Int) : Int :=
  if endPos < (text.length : Int) then
    let searchStart := max (endPos - 200) pos
    match findNlNl (pySlice text searchStart (endPos + 200)) with
    | some i => searchStart + ((i : Int) + 2)
    | none => endPos
  else endPos

/-- The `while current_pos < len(text)` loop of `semantic_chunk`, with
fuel.  State: remaining fuel, `current_pos`, `current_page`,
`chunk_index`, accumulated chunks.  Note the unconditional rewind
`current_pos = end_pos - overlap_chars` at the end of each iteration. -/
def chunkLoop (text : List Char) (targetChars overlapChars : Int) :
    Nat → Int → Nat → Nat → List Chunk → Option (List Chunk)
  | 0, _, _, _, _ => none
  | fuel + 1, pos, curPage, idx, acc =>
    if pos < (text.length : Int) then
      let endPos := paraAdjust text pos (min (pos + targetChars) (text.length : Int))
      let chunkText := pyStrip (pySlice text pos endPos)
      if chunkText = [] then some acc
      else
        let ms := findMarkers chunkText
        let pStart := ms.headD curPage
        let pEnd := ms.getLastD curPage
        chunkLoop text targetChars overlapChars fuel (endPos - overlapChars) pEnd
          (idx + 1)
          (acc ++ [{ content := chunkText, page_start := pStart,
                     page_end := pEnd, chunk_index := idx }])
    else some acc

/-- `semantic_chunk(text, page_texts, target_tokens, overlap_tokens)`:
`target_chars = 4 * target_tokens`, `overlap_chars = 4 *
overlap_tokens`, starting at position 0, page 1, index 0.  (`page_texts`
is only received, never read, by the source loop.) -/
def semantic_chunk (text : List Char) (targetTokens overlapTokens : Nat)
    (fuel : Nat) : Option (List Chunk) :=
  chunkLoop text (4 * targetTokens) (4 * overlapTokens) fuel 0 1 0 []

/-! ## Concrete example data used by the counterexamples and witnesses -/

/-- C9 failing input: any short text with a non-whitespace tail. -/
def c9Text : List Char := "hello".toList

/-- C6 failing input A (416 characters): decreasing page markers
followed by enough trailing whitespace for the loop to break. -/
def c6TextA : List Char := "[PAGE 2][PAGE 1]".toList ++ List.replicate 400 ' '

/-- The single chunk produced from `c6TextA`. -/
def c6ListA : List Chunk :=
  [{ content := "[PAGE 2][PAGE 1]".toList, page_start := 2, page_end := 1,
     chunk_index := 0 }]

/-- C6 failing input B (128 characters, strictly increasing page
markers): with a 100-character window and 28-character overlap, three
page markers inside the overlap window make consecutive chunks overlap
by more than one page.  (The same mechanism exists at the default
4000/400 sizes with three markers in the final 400 characters of a
window.) -/
def c6TextB : List Char :=
  "[PAGE 1]".toList ++ List.replicate 68 'a' ++
    "[PAGE 3][PAGE 4][PAGE 5]".toList ++ List.replicate 28 ' '

/-- A ready document for the search examples. -/
def c7Doc : Document :=
  { id := 1, case_id := 2, filename := "a.pdf", storage_key := "k",
    mime_type := "application/pdf", file_size := 10,
    nas_relative_path := none, nas_full_path := some "/p/a.pdf",
    is_permanent := false, folder_tag := none, file_hash := none,
    tags := [], processing_status := "ready", deleted_at := none,
    last_seen_at := none }

/-- An embedded chunk of `c7Doc`. -/
def c7Chunk : DocumentChunk :=
  { id := 3, document_id := 1, content := "some text", page_start := 1,
    page_end := 2, chunk_index := 0, has_embedding := true }

/-- A search row for the C7 witness. -/
def c7Row : SearchRow :=
  { chunk := c7Chunk, doc := c7Doc, case_client_id := 4,
    client_code := "1001", vec_score := 3, fts_score := 4 }

/-- A search row for the C10 witness (its own ready document). -/
def c10Row : SearchRow :=
  { chunk := { id := 13, document_id := 11, content := "soft deleted text",
               page_start := 1, page_end := 1, chunk_index := 0,
               has_embedding := true },
    doc := { c7Doc with
      id := 11
      storage_key := "k2"
      nas_full_path := some "/p/b.pdf" },
    case_client_id := 4, client_code := "1001",
    vec_score := 1, fts_score := 0 }

/-- C1 initial state: one approved client `1001` with a 2024 case. -/
def c1Db0 : Db :=
  { documents := [],
    clients := [{ id := 1, client_code := "1001", approval_status := "approved" }],
    cases := [{ id := 2, client_id := 1, tax_year := 2024, is_permanent := false }],
    queue_items := [],
    next_id := 10 }

/-- Parsed info shared by the C1 requests. -/
def c1Parsed : ParsedInfo :=
  { client_code := some "1001", client_name := some "Client",
    client_type := some "individual", year := some 2024,
    relative_path := "2024/a.pdf" }

/-- First C1 arrival: path `a.pdf`, hash `sha256:aabb`. -/
def c1Req1 : FileArrivedRequest :=
  { nas_path := "/volume1/LeCPA/ClientFiles/1001_Client/2024/a.pdf",
    file_size := 100, file_hash := "sha256:aabb", modified_time := 0,
    parsed_info := c1Parsed }

/-- Second C1 arrival: different path `b.pdf`, same content hash. -/
def c1Req2 : FileArrivedRequest :=
  { nas_path := "/volume1/LeCPA/ClientFiles/1001_Client/2024/b.pdf",
    file_size := 100, file_hash := "sha256:aabb", modified_time := 0,
    parsed_info := c1Parsed }

/-- State after the first C1 arrival. -/
def c1Db1 : Db :=
  match file_arrived 5 2025 c1Req1 c1Db0 with
  | .ok p => p.2
  | .error _ => c1Db0

/-- C5 initial state: completely empty store. -/
def c5Db0 : Db :=
  { documents := [], clients := [], cases := [], queue_items := [],
    next_id := 1 }

/-- First C5 arrival for the unknown client `1001`. -/
def c5Req1 : FileArrivedRequest :=
  { nas_path := "/volume1/LeCPA/ClientFiles/1001_Client/2024/a.pdf",
    file_size := 100, file_hash := "sha256:cc01", modified_time := 0,
    parsed_info := c1Parsed }

/-- Second C5 arrival, a different file of the same unknown client. -/
def c5Req2 : FileArrivedRequest :=
  { nas_path := "/volume1/LeCPA/ClientFiles/1001_Client/2024/b.pdf",
    file_size := 101, file_hash := "sha256:cc02", modified_time := 0,
    parsed_info := c1Parsed }

/-- State after the first C5 arrival (client queue item inserted). -/
def c5Db1 : Db :=
  match file_arrived 5 2025 c5Req1 c5Db0 with
  | .ok p => p.2
  | .error _ => c5Db0

/-- C4 counterexample: when every attempt fails with a transient
network/timeout error, the caller of `notify_file_arrived` receives the
`tenacity.RetryError` exception — not a structured error response — after
the two exponential backoff sleeps of 2 and 4 seconds. -/
theorem notify_file_arrived_exhaustion_raises :
    notify_file_arrived (fun _ => .transient) = (.retryError, [2, 4]) ∧
    ∀ r : FileArrivedResponse,
      (notify_file_arrived (fun _ => .transient)).1 ≠ .ok r := by
  constructor
  · rfl
  · intro r h
    simp [notify_file_arrived, runNotify, waitExponential] at h

/-- C4 amended: an HTTP application error on the first attempt is never
retried and yields the structured `status="error"` response; transient
errors are retried with exponential backoff (sleeps 2 then 4 seconds)
up to the fixed budget of 3 attempts, a later success or HTTP error being
returned as the corresponding response; but when all 3 attempts are
transient failures the caller gets the `RetryError` exception rather than
a structured response. -/
theorem notify_file_arrived_retry_policy (outcome : Nat → AttemptOutcome) :
    (∀ code, outcome 1 = .httpStatus code →
      notify_file_arrived outcome = (.ok (httpErrorResponse code), [])) ∧
    (∀ resp, outcome 1 = .transient → outcome 2 = .success resp →
      notify_file_arrived outcome = (.ok resp, [waitExponential 1])) ∧
    (∀ code, outcome 1 = .transient → outcome 2 = .transient →
      outcome 3 = .httpStatus code →
      notify_file_arrived outcome =
        (.ok (httpErrorResponse code), [waitExponential 1, waitExponential 2])) ∧
    (outcome 1 = .transient → outcome 2 = .transient → outcome 3 = .transient →
      notify_file_arrived outcome = (.retryError, [waitExponential 1, waitExponential 2])) ∧
    (notify_file_arrived outcome).2.length ≤ 2 := by
  refine ⟨?_, ?_, ?_, ?_, ?_⟩
  · intro code h
    simp [notify_file_arrived, runNotify, h]
  · intro resp h1 h2
    simp [notify_file_arrived, runNotify, h1, h2]
  · intro code h1 h2 h3
    simp [notify_file_arrived, runNotify, h1, h2, h3]
  · intro h1 h2 h3
    simp [notify_file_arrived, runNotify, h1, h2, h3]
  · unfold notify_file_arrived runNotify
    cases outcome 1 <;> simp
    unfold runNotify
    cases outcome 2 <;> simp
    unfold runNotify
    cases outcome 3 <;> simp

/-- Concrete instances of the retry-policy theorem: an HTTP 422 on the
first attempt yields the structured error response with no retries, and
a transient failure followed by a success returns the success response
after one 2-second backoff. -/
theorem notify_file_arrived_retry_policy_witness :
    notify_file_arrived (fun _ => .httpStatus 422) =
      (.ok (httpErrorResponse 422), []) ∧
    notify_file_arrived (fun n => if n = 1 then .transient else .success
      { status := "queued", message := "ok" }) =
      (.ok { status := "queued", message := "ok" }, [2]) := by
  constructor
  · exact (notify_file_arrived_retry_policy (fun _ => .httpStatus 422)).1 422 rfl
  · exact (notify_file_arrived_retry_policy
      (fun n => if n = 1 then .transient else .success
        { status := "queued", message := "ok" })).2.1
      { status := "queued", message := "ok" } rfl rfl

/-- C7: every relevance score reported by hybrid search lies in `[0,1]`,
whatever the (non-negative or not) weights and the store-computed score
inputs are, because the combined score is clamped by
`min(1.0, max(0.0, score))` before being reported. -/
theorem search_relevance_in_unit_interval
    (rows : List SearchRow) (case_id : Option Nat)
    (client_code : Option String) (doc_types : Option (List String))
    (top_k : Nat) (vw fw : Rat) (c : Citation)
    (hc : c ∈ search rows case_id client_code doc_types top_k vw fw) :
    0 ≤ c.relevance_score ∧ c.relevance_score ≤ 1 := by
  unfold search at hc
  obtain ⟨p, _, rfl⟩ := List.mem_map.mp hc
  unfold citationOf clamp01
  exact ⟨le_min (by norm_num) (le_max_left 0 _), min_le_left 1 _⟩

/-- Concrete instance of the relevance bound: one eligible row with
weights `2` and `2` (summing to 4) still reports a relevance inside
`[0,1]`. -/
theorem search_relevance_in_unit_interval_witness :
    0 ≤ (citationOf 2 2 1 c7Row).relevance_score ∧
      (citationOf 2 2 1 c7Row).relevance_score ≤ 1 :=
  search_relevance_in_unit_interval [c7Row] none none none 10 2 2
    (citationOf 2 2 1 c7Row)
    (by
      rw [show search [c7Row] none none none 10 2 2 =
        [citationOf 2 2 1 c7Row] from rfl]
      exact List.mem_singleton_self _)

/-- C2: under the default configuration the skip-pattern check of
`FolderParser.parse` fires on `*.lnk` before `_process_file` ever
reaches its `is_lnk_file` branch, so a shortcut file is counted as
skipped-invalid instead of being routed to the shortcut resolver. -/
theorem scanner_skips_lnk_before_shortcut_branch :
    is_lnk_file "2010_Business.lnk" = true ∧
    scannerProcessFile defaultParsing defaultRoot
        (defaultRoot ++ ["1001_Client", "2010_Business.lnk"]) =
      .skippedInvalid (some "Matches skip pattern: .*\\.lnk") ∧
    scannerProcessFile defaultParsing defaultRoot
        (defaultRoot ++ ["1001_Client", "2010_Business.lnk"]) ≠
      .shortcutRoute := by
  refine ⟨rfl, by decide, by decide⟩

/-- C1: two arrivals with the same content hash `sha256:aabb` but
different paths both come back `queued`, and a second `Document` row is
created — the handler stores the hash with the `sha256:` prefix
stripped but compares the raw prefixed hash, so the duplicate check
never matches. -/
theorem file_arrived_hash_dedup_misses :
    (file_arrived 5 2025 c1Req1 c1Db0).map
        (fun p => (p.1.status, p.2.documents.length)) = .ok ("queued", 1) ∧
    c1Db1.documents.map (fun d => d.file_hash) = [some "aabb"] ∧
    (file_arrived 6 2025 c1Req2 c1Db1).map
        (fun p => (p.1.status, p.1.existing_document_id, p.2.documents.length)) =
      .ok ("queued", none, 2) := by
  refine ⟨rfl, rfl, rfl⟩

/-- C5: a repeat arrival for the same still-unknown client re-attempts
the `SyncQueueItem` insert for the same client folder path; the unique
constraint on `nas_path` rejects it and the endpoint surfaces an
`IntegrityError` instead of reporting `pending_approval`. -/
theorem file_arrived_requeue_integrity_error :
    (file_arrived 5 2025 c5Req1 c5Db0).map
        (fun p => (p.1.status, p.2.queue_items.length)) =
      .ok ("pending_approval", 1) ∧
    file_arrived 6 2025 c5Req2 c5Db1 = .error .integrityError := by
  refine ⟨rfl, rfl⟩

/-- C10: a file-deleted notification only sets `deleted_at` (every other
document field, in particular `processing_status`, is preserved);
search eligibility never consults `deleted_at`; and a soft-deleted but
still-`ready` row with an embedding is still returned by `search`. -/
theorem search_ignores_soft_delete :
    (∀ (db : Db) (path : String) (now : Nat),
      (file_deleted now path db).2.documents.map
          (fun d => ({ d with deleted_at := none } : Document)) =
        db.documents.map (fun d => ({ d with deleted_at := none } : Document))) ∧
    (∀ (r : SearchRow) (t : Nat),
      eligibleRow { r with doc := { r.doc with deleted_at := some t } } =
        eligibleRow r) ∧
    (∀ (r : SearchRow) (t : Nat) (vw fw : Rat),
      r.doc.processing_status = "ready" → r.chunk.has_embedding = true →
      search [{ r with doc := { r.doc with deleted_at := some t } }]
          none none none 1 vw fw =
        [citationOf vw fw 1 { r with doc := { r.doc with deleted_at := some t } }]) := by
  refine ⟨?_, ?_, ?_⟩
  · intro db path now
    unfold file_deleted
    cases db.documents.find? (fun d => d.nas_full_path == some path) with
    | none => rfl
    | some d =>
      simp only [List.map_map]
      apply List.map_congr_left
      intro x _
      by_cases h : x.nas_full_path = some path <;> simp [h]
  · intro r t
    rfl
  · intro r t vw fw h1 h2
    unfold search eligibleRow matchesFilters
    simp only [List.filter, h1, h2]
    simp [sortDesc, insertDesc, List.enum]

/-- Concrete instance: the row of a soft-deleted (at time 7) but `ready`
document is still returned by search. -/
theorem search_ignores_soft_delete_witness :
    search [{ c10Row with doc := { c10Row.doc with deleted_at := some 7 } }]
        none none none 1 1 1 =
      [citationOf 1 1 1
        { c10Row with doc := { c10Row.doc with deleted_at := some 7 } }] :=
  search_ignores_soft_delete.2.2 c10Row 7 1 1 rfl rfl

/-- From the fixed position `len(text) - overlap_chars = -395` the loop
re-appends the same tail chunk forever: one unfolding returns to the
same position with one more chunk, for any fuel. -/
theorem c9_stuck (fuel : Nat) :
    ∀ (idx : Nat) (acc : List Chunk),
      chunkLoop c9Text 4000 400 fuel (-395) 1 idx acc = none := by
  induction fuel with
  | zero => intro idx acc; rfl
  | succ n ih =>
    intro idx acc
    exact (show chunkLoop c9Text 4000 400 (n + 1) (-395) 1 idx acc =
        chunkLoop c9Text 4000 400 n (-395) 1 (idx + 1)
          (acc ++ [{ content := c9Text, page_start := 1, page_end := 1,
                     chunk_index := idx }]) from rfl).trans
      (ih (idx + 1) _)

/-- C9: `semantic_chunk` does not terminate on the five-character text
`hello` (with the default 1000-token target and 100-token overlap): the
final-window rewind `current_pos = end_pos - overlap_chars` moves the
position backwards to a fixed point, so no fuel bound suffices. -/
theorem semantic_chunk_diverges_on_hello :
    ∀ fuel : Nat, semantic_chunk c9Text 1000 100 fuel = none := by
  intro fuel
  cases fuel with
  | zero => rfl
  | succ n =>
    exact (show semantic_chunk c9Text 1000 100 (n + 1) =
        chunkLoop c9Text 4000 400 n (-395) 1 1
          [{ content := c9Text, page_start := 1, page_end := 1,
             chunk_index := 0 }] from rfl).trans
      (c9_stuck n 1 _)

/-- C6 counterexample: the chunker can emit a chunk with
`page_start > page_end` (input `c6TextA`: markers in decreasing order),
and — even with strictly increasing markers (`c6TextB`, chunked with a
25-token target and 7-token overlap) — consecutive chunks with
`chunk[0].page_end = 5 > chunk[1].page_start + 1 = 4`, because the
overlap window can span several page markers. Both runs terminate and
their chunk lists are computed exactly. -/
theorem semantic_chunk_page_range_violations :
    (semantic_chunk c6TextA 1000 100 2).map
        (fun cs => cs.map (fun c => (c.chunk_index, c.page_start, c.page_end))) =
      some [(0, 2, 1)] ∧
    ¬ (2 : Nat) ≤ 1 ∧
    (semantic_chunk c6TextB 25 7 3).map
        (fun cs => cs.map (fun c => (c.chunk_index, c.page_start, c.page_end))) =
      some [(0, 1, 5), (1, 3, 5)] ∧
    ¬ (5 : Nat) ≤ 3 + 1 := by
  refine ⟨rfl, by omega, rfl, by omega⟩

/-- `getLastD` of a non-empty list does not depend on the default. -/
theorem getLastD_cons_default (a : Nat) (l : List Nat) (d₁ d₂ : Nat) :
    (a :: l).getLastD d₁ = (a :: l).getLastD d₂ := by
  have hs : (a :: l).getLast?.isSome := List.getLast?_isSome.mpr (by simp)
  obtain ⟨x, hx⟩ := Option.isSome_iff_exists.mp hs
  simp [List.getLastD_eq_getLast?, hx]

/-- Dropping the head of a two-element-or-longer list keeps `getLastD`. -/
theorem getLastD_cons_cons (a b : Nat) (l : List Nat) (d : Nat) :
    (a :: b :: l).getLastD d = (b :: l).getLastD d := by
  simp [List.getLastD_eq_getLast?, List.getLast?_cons_cons]

/-- In a `≤`-chain the head is at most the last element. -/
theorem chain_le_head_getLastD :
    ∀ (ms : List Nat) (m : Nat), List.Chain' (· ≤ ·) (m :: ms) →
      m ≤ (m :: ms).getLastD 0 := by
  intro ms
  induction ms with
  | nil => intro m _; simp [List.getLastD_eq_getLast?]
  | cons b ms2 ih =>
    intro m hch
    rw [List.chain'_cons] at hch
    calc m ≤ b := hch.1
      _ ≤ (b :: ms2).getLastD 0 := ih b hch.2
      _ = (m :: b :: ms2).getLastD 0 := (getLastD_cons_cons m b ms2 0).symm

/-- Invariant of the chunking loop: starting from an accumulator whose
indices are `0..idx-1` and whose page fields agree with its marker
lists, any successful run returns a list with dense indices `0..n-1`
and page fields equal to the first/last marker of each chunk (or a
common fallback page when a chunk has no marker). -/
theorem chunkLoop_invariant (text : List Char) (tc oc : Int) :
    ∀ (fuel : Nat) (pos : Int) (page idx : Nat) (acc l : List Chunk),
      chunkLoop text tc oc fuel pos page idx acc = some l →
      acc.map Chunk.chunk_index = List.range idx →
      (∀ c ∈ acc,
        (findMarkers c.content = [] → c.page_start = c.page_end) ∧
        (∀ m ms, findMarkers c.content = m :: ms →
          c.page_start = m ∧ c.page_end = (m :: ms).getLastD 0)) →
      l.map Chunk.chunk_index = List.range l.length ∧
      ∀ c ∈ l,
        (findMarkers c.content = [] → c.page_start = c.page_end) ∧
        (∀ m ms, findMarkers c.content = m :: ms →
          c.page_start = m ∧ c.page_end = (m :: ms).getLastD 0) := by
  intro fuel
  induction fuel with
  | zero =>
    intro pos page idx acc l h
    exact absurd h (by simp [chunkLoop])
  | succ n ih =>
    intro pos page idx acc l h hidx hprops
    have hlen : acc.length = idx := by
      have := congrArg List.length hidx
      simpa using this
    rw [chunkLoop] at h
    split at h
    · dsimp only at h
      split at h
      · -- empty chunk: break with the accumulated list
        cases h
        exact ⟨by rw [hidx, hlen], hprops⟩
      · -- recursive step with one more chunk
        refine ih _ _ _ _ _ h ?_ ?_
        · rw [List.map_append, hidx]
          simp [List.range_succ]
        · intro c hc
          rcases List.mem_append.mp hc with hc | hc
          · exact hprops c hc
          · have hceq : c = _ := List.mem_singleton.mp hc
            subst hceq
            constructor
            · intro hms
              simp only [hms]
              rfl
            · intro m ms hms
              simp only [hms]
              exact ⟨rfl, getLastD_cons_default m ms page 0⟩
    · -- position beyond the end: return the accumulated list
      cases h
      exact ⟨by rw [hidx, hlen], hprops⟩

/-- C6 amended: whenever `semantic_chunk` returns, the chunk indices are
exactly `0..n-1` with no gaps; each chunk's `page_start`/`page_end` are
the first/last page-marker numbers of its content (both equal to the
running page counter when it has no marker), hence `page_start ≤
page_end` holds whenever the chunk's marker numbers are non-decreasing.
Neither `page_start ≤ page_end` for arbitrary marker order nor the
cross-chunk bound `chunk[i].page_end ≤ chunk[i+1].page_start + 1` holds
in general (`semantic_chunk_page_range_violations`). -/
theorem semantic_chunk_well_indexed (text : List Char) (tt ot fuel : Nat)
    (l : List Chunk) (h : semantic_chunk text tt ot fuel = some l) :
    l.map Chunk.chunk_index = List.range l.length ∧
    ∀ c ∈ l,
      (findMarkers c.content = [] → c.page_start = c.page_end) ∧
      (∀ m ms, findMarkers c.content = m :: ms →
        c.page_start = m ∧ c.page_end = (m :: ms).getLastD 0) ∧
      (List.Chain' (· ≤ ·) (findMarkers c.content) →
        c.page_start ≤ c.page_end) := by
  have hinv := chunkLoop_invariant text (4 * tt) (4 * ot) fuel 0 1 0 [] l h
    rfl (by simp)
  refine ⟨hinv.1, ?_⟩
  intro c hc
  obtain ⟨h1, h2⟩ := hinv.2 c hc
  refine ⟨h1, h2, ?_⟩
  intro hchain
  cases hms : findMarkers c.content with
  | nil => exact (h1 hms).le
  | cons m ms =>
    obtain ⟨hs, he⟩ := h2 m ms hms
    rw [hs, he]
    rw [hms] at hchain
    exact chain_le_head_getLastD ms m hchain

/-- Concrete instance of `semantic_chunk_well_indexed` on the run over
`c6TextA`: the single returned chunk is indexed `0`. -/
theorem semantic_chunk_well_indexed_witness :
    c6ListA.map Chunk.chunk_index = List.range c6ListA.length :=
  (semantic_chunk_well_indexed c6TextA 1000 100 2 c6ListA rfl).1

/-- A string with a non-empty left part stays non-empty after append. -/
theorem append_ne_empty (s t : String) (hs : 0 < s.length) :
    (s ++ t) ≠ "" := by
  intro h
  have h2 := congrArg String.length h
  rw [String.length_append] at h2
  have h0 : ("" : String).length = 0 := rfl
  rw [h0] at h2
  omega

/-- C8: `parse` is a total function into `ParsedPath` (the embedding is
a plain function, matching the source, whose only throwing operation is
caught) and deterministic (two calls agree definitionally); every
invalid result carries a non-empty skip-reason string, and every valid
result carries a client code and no skip reason. -/
theorem parse_total_and_deterministic (cfg : ParsingCfg)
    (root path : List String) :
    parse cfg root path = parse cfg root path ∧
    ((parse cfg root path).is_valid = false →
      ∃ r, (parse cfg root path).skip_reason = some r ∧ r ≠ "") ∧
    ((parse cfg root path).is_valid = true →
      (parse cfg root path).skip_reason = none ∧
        (parse cfg root path).client_code.isSome = true) := by
  refine ⟨rfl, ?_, ?_⟩
  · unfold parse
    dsimp only
    split
    · split
      · intro _
        exact ⟨_, rfl, by decide⟩
      · split
        · intro _
          exact ⟨_, rfl, append_ne_empty _ _ (by decide)⟩
        · split
          · intro _
            exact ⟨_, rfl, append_ne_empty _ _ (by decide)⟩
          · intro hv
            simp at hv
    · intro _
      exact ⟨_, rfl, by decide⟩
  · unfold parse
    dsimp only
    split
    · split
      · intro hv
        simp at hv
      · split
        · intro hv
          simp at hv
        · split
          · intro hv
            simp at hv
          · intro _
            exact ⟨rfl, rfl⟩
    · intro hv
      simp at hv

/-- Instance of `parse_total_and_deterministic` at a concrete invalid
path (outside the NAS root): the skip reason is present and
non-empty. -/
theorem parse_total_and_deterministic_witness :
    ∃ r, (parse defaultParsing defaultRoot ["foo"]).skip_reason = some r ∧
      r ≠ "" :=
  (parse_total_and_deterministic defaultParsing defaultRoot ["foo"]).2.1 rfl

/-- A wildcard-free glob pattern prefix-matches exactly as a literal. -/
theorem globPrefixMatch_of_isPrefixOf :
    ∀ (lit s : List Char), lit.all (fun c => !(c == '*') && !(c == '?')) = true →
      lit.isPrefixOf s = true → globPrefixMatch lit s = true := by
  intro lit
  induction lit with
  | nil => intro s _ _; rfl
  | cons c ps ih =>
    intro s hall hpre
    rw [List.all_cons] at hall
    have hc : ¬(c = '*') ∧ ¬(c = '?') := by
      constructor <;> intro hceq <;> subst hceq <;> simp at hall
    cases s with
    | nil => simp [List.isPrefixOf] at hpre
    | cons d rest =>
      rw [show (c :: ps).isPrefixOf (d :: rest) = (c == d && ps.isPrefixOf rest)
        from rfl] at hpre
      rw [Bool.and_eq_true] at hpre hall
      rw [globPrefixMatch, if_neg hc.1, if_neg hc.2]
      rw [Bool.and_eq_true]
      exact ⟨hpre.1, ih rest hall.2 hpre.2⟩

/-- If a newline-free filename contains `.lnk` anywhere, the converted
glob `*.lnk` (regex `.*\.lnk`) prefix-matches it. -/
theorem lnk_glob_matches :
    ∀ (name : List Char), name.contains '\n' = false →
      containsSub ".lnk".toList name = true →
      globPrefixMatch "*.lnk".toList name = true := by
  intro name
  induction name with
  | nil => intro _ h; exact absurd h (by decide)
  | cons c rest ih =>
    intro hnl h
    rw [List.contains_cons, Bool.or_eq_false_iff] at hnl
    have hc : ¬(c = '\n') := by
      intro hceq
      subst hceq
      simp at hnl
    rw [show globPrefixMatch "*.lnk".toList (c :: rest) =
      globStar (globPrefixMatch ".lnk".toList) (c :: rest) from rfl]
    rw [globStar, Bool.or_eq_true]
    rw [show containsSub ".lnk".toList (c :: rest) =
      (".lnk".toList.isPrefixOf (c :: rest) || containsSub ".lnk".toList rest)
      from rfl, Bool.or_eq_true] at h
    rcases h with h | h
    · exact Or.inl (globPrefixMatch_of_isPrefixOf _ _ (by decide) h)
    · refine Or.inr ?_
      rw [Bool.and_eq_true]
      exact ⟨by simpa using hc, ih hnl.2 h⟩

/-- Under the default configuration, `parse` marks every path whose
(newline-free) filename contains `.lnk` as invalid — whichever earlier
failure applies, the skip-pattern pass catches it at the latest. -/
theorem parse_invalid_on_lnk (root path : List String)
    (hnl : (path.getLastD "").toList.contains '\n' = false)
    (hlnk : containsSub ".lnk".toList (path.getLastD "").toList = true) :
    (parse defaultParsing root path).is_valid = false := by
  unfold parse
  dsimp only
  split
  · split
    · rfl
    · have hfind : (defaultParsing.skip_patterns.find?
          (fun p => globPrefixMatch p.toList (path.getLastD "").toList)).isSome := by
        rw [List.find?_isSome]
        exact ⟨"*.lnk", by simp [defaultParsing], lnk_glob_matches _ hnl hlnk⟩
      obtain ⟨p, hp⟩ := Option.isSome_iff_exists.mp hfind
      rw [hp]
  · rfl

/-- Under the default configuration the scanner (and watcher) never
route a file whose newline-free name contains `.lnk` — in particular
any name ending in `.lnk` — to the shortcut resolver: the parse-validity
check fires first. -/
theorem scanner_never_routes_lnk (root path : List String)
    (hnl : (path.getLastD "").toList.contains '\n' = false)
    (hlnk : containsSub ".lnk".toList (path.getLastD "").toList = true) :
    scannerProcessFile defaultParsing root path =
      .skippedInvalid (parse defaultParsing root path).skip_reason := by
  unfold scannerProcessFile
  dsimp only
  rw [parse_invalid_on_lnk root path hnl hlnk]
  rfl

/-- Instance of `scanner_never_routes_lnk` at the concrete shortcut file
of the C2 counterexample. -/
theorem scanner_never_routes_lnk_witness :
    scannerProcessFile defaultParsing defaultRoot
        (defaultRoot ++ ["1001_Client", "2010_Business.lnk"]) =
      .skippedInvalid (parse defaultParsing defaultRoot
        (defaultRoot ++ ["1001_Client", "2010_Business.lnk"])).skip_reason :=
  scanner_never_routes_lnk defaultRoot
    (defaultRoot ++ ["1001_Client", "2010_Business.lnk"]) (by decide) (by decide)

/-- C8 counterexample: the parser accepts configurations on which
`parse` raises.  With the group-less client pattern `^1\d{3}_.+$`
(accepted — `ParsingConfig` validates nothing about groups),
`match.group("code")` raises IndexError on the first matching folder;
with the year pattern `^(?P<year>20\d{2}|TBD)$`, a `TBD` year folder
makes `int(year_match.group("year"))` raise ValueError.  This refutes
"for every configuration the parser accepts, parse never raises". -/
theorem parseC_raises_on_accepted_configs :
    parseC c8NoGroupCfg defaultRoot
        (defaultRoot ++ ["1002_Doe", "2024", "x.pdf"]) =
      .error .indexError ∧
    parseC c8TbdYearCfg defaultRoot
        (defaultRoot ++ ["1002_Doe", "TBD", "x.pdf"]) =
      .error .valueError := by
  exact ⟨rfl, rfl⟩

/-- A digit character is not Python whitespace. -/
theorem digit_not_space (c : Char) (h : c.isDigit = true) :
    pyIsSpace c = false := by
  simp only [pyIsSpace, Bool.or_eq_false_iff, beq_eq_false_iff_ne, ne_eq]
  refine ⟨⟨⟨⟨⟨?_, ?_⟩, ?_⟩, ?_⟩, ?_⟩, ?_⟩ <;>
    (intro hc; subst hc; exact absurd h (by decide))

/-- Shape of any successful match of the default year pattern: four
characters `2`, `0`, then two digits, optionally followed by one final
newline, with the `year` group capturing exactly those four
characters. -/
theorem yearRx_match_shape (folder : List Char) (caps : Caps)
    (h : rxMatch yearRxDefault folder = some caps) :
    ∃ d1 d2, folder.take 4 = ['2', '0', d1, d2] ∧
      d1.isDigit = true ∧ d2.isDigit = true ∧
      caps = [("year", ['2', '0', d1, d2])] := by
  rcases folder with _ | ⟨c1, rest1⟩
  · simp [rxMatch, rxMatches, yearRxDefault] at h
  by_cases hc1 : c1 = '2'
  case neg => simp [rxMatch, rxMatches, yearRxDefault, hc1] at h
  subst hc1
  rcases rest1 with _ | ⟨c2, rest2⟩
  · simp [rxMatch, rxMatches, yearRxDefault] at h
  by_cases hc2 : c2 = '0'
  case neg => simp [rxMatch, rxMatches, yearRxDefault, hc2] at h
  subst hc2
  rcases rest2 with _ | ⟨c3, rest3⟩
  · simp [rxMatch, rxMatches, yearRxDefault] at h
  by_cases hc3 : c3.isDigit = true
  case neg =>
    simp [rxMatch, rxMatches, yearRxDefault,
      Bool.eq_false_iff.mpr hc3] at h
  rcases rest3 with _ | ⟨c4, rest4⟩
  · simp [rxMatch, rxMatches, yearRxDefault, hc3] at h
  by_cases hc4 : c4.isDigit = true
  case neg =>
    simp [rxMatch, rxMatches, yearRxDefault, hc3,
      Bool.eq_false_iff.mpr hc4] at h
  by_cases he : rest4 = [] ∨ rest4 = ['\n']
  case neg =>
    simp [rxMatch, rxMatches, yearRxDefault, hc3, hc4, he] at h
  refine ⟨c3, c4, by simp [List.take], hc3, hc4, ?_⟩
  simp [rxMatch, rxMatches, yearRxDefault, hc3, hc4, he] at h
  rw [show rest4.length + 1 + 1 + 1 + 1 - rest4.length = 4 from by omega] at h
  simp [List.take] at h
  exact h.symm

/-- The default year pattern always captures four digit characters,
which `int()` parses. -/
theorem default_year_participates :
    ∀ folder caps, rxMatch yearRxDefault folder = some caps →
      ∃ ds n, capLookup caps "year" = some ds ∧ pyInt ds = .ok n := by
  intro folder caps h
  obtain ⟨d1, d2, _, h1, h2, hcaps⟩ := yearRx_match_shape folder caps h
  subst hcaps
  refine ⟨['2', '0', d1, d2], (digitsToNat ['2', '0', d1, d2] : Int), rfl, ?_⟩
  have hs : pyStrip ['2', '0', d1, d2] = ['2', '0', d1, d2] := by
    unfold pyStrip
    rw [show List.dropWhile pyIsSpace ['2', '0', d1, d2] = ['2', '0', d1, d2]
      from by rw [List.dropWhile_cons, if_neg (by decide)]]
    rw [show (['2', '0', d1, d2] : List Char).reverse = [d2, d1, '0', '2']
      from by simp]
    rw [List.dropWhile_cons, if_neg (by rw [digit_not_space d2 h2]; simp)]
    simp
  unfold pyInt
  rw [hs]
  simp [h1, h2]

/-- Under group-carrying client patterns, `_parse_client_folder` never
raises. -/
theorem parse_client_folderC_total (pats : List (Rx × String))
    (folder : List Char)
    (hc : ∀ p ∈ pats, rxHasGroup "code" p.1 = true ∧
      rxHasGroup "name" p.1 = true) :
    ∃ v, parse_client_folderC pats folder = .ok v := by
  induction pats with
  | nil => exact ⟨_, rfl⟩
  | cons hd tl ih =>
    obtain ⟨hcode, hname⟩ := hc hd (List.mem_cons_self hd tl)
    have ih' := ih (fun p hp => hc p (List.mem_cons_of_mem hd hp))
    rw [parse_client_folderC]
    cases rxMatch hd.1 folder with
    | none => exact ih'
    | some caps =>
      dsimp only
      rw [show pyGroup hd.1 caps "code" = .ok (capLookup caps "code")
        from by rw [pyGroup, if_pos hcode]]
      rw [show pyGroup hd.1 caps "name" = .ok (capLookup caps "name")
        from by rw [pyGroup, if_pos hname]]
      exact ⟨_, rfl⟩

/-- Under a year pattern that carries the `year` group and captures
`int()`-parsable text whenever it matches, `_parse_second_level` never
raises. -/
theorem parse_second_levelC_total (yp : Rx) (sf : List SpecialFolderCfg)
    (folder : String)
    (hy1 : rxHasGroup "year" yp = true)
    (hy2 : ∀ f caps, rxMatch yp f = some caps →
      ∃ ds n, capLookup caps "year" = some ds ∧ pyInt ds = .ok n) :
    ∃ v, parse_second_levelC yp sf folder = .ok v := by
  rw [parse_second_levelC]
  cases hm : rxMatch yp folder.toList with
  | none =>
    cases sf.reverse.find? (fun f => f.folder == folder) <;> exact ⟨_, rfl⟩
  | some caps =>
    obtain ⟨ds, n, hds, hint⟩ := hy2 folder.toList caps hm
    dsimp only
    rw [show pyGroup yp caps "year" = .ok (capLookup caps "year")
      from by rw [pyGroup, if_pos hy1]]
    rw [hds]
    dsimp only
    rw [hint]
    exact ⟨_, rfl⟩

/-- C8 amended: for every input path, `parse` is deterministic and —
over every accepted configuration whose client patterns all carry the
`code` and `name` groups and whose year pattern carries a `year` group
capturing `int()`-parsable text whenever it matches (the default
configuration included) — total: it never raises and returns a
`ParsedPath`.  Whatever configuration produced it, every returned
invalid result carries a non-empty skip-reason string and every valid
result a client code and no reason.  Outside that configuration region
`parse` can raise (`parseC_raises_on_accepted_configs`). -/
theorem parseC_total_on_group_configs (cfg : RegexParsingCfg)
    (root path : List String)
    (hc : ∀ p ∈ cfg.client_patterns, rxHasGroup "code" p.1 = true ∧
      rxHasGroup "name" p.1 = true)
    (hy1 : rxHasGroup "year" cfg.year_pattern = true)
    (hy2 : ∀ f caps, rxMatch cfg.year_pattern f = some caps →
      ∃ ds n, capLookup caps "year" = some ds ∧ pyInt ds = .ok n) :
    parseC cfg root path = parseC cfg root path ∧
    (∃ r, parseC cfg root path = .ok r) ∧
    (∀ r, parseC cfg root path = .ok r →
      (r.is_valid = false → ∃ s, r.skip_reason = some s ∧ s ≠ "") ∧
      (r.is_valid = true → r.skip_reason = none ∧
        r.client_code.isSome = true)) := by
  refine ⟨rfl, ?_, ?_⟩
  · unfold parseC
    dsimp only
    split
    · split
      · exact ⟨_, rfl⟩
      · split
        · exact ⟨_, rfl⟩
        · obtain ⟨⟨code, name, ctype⟩, hv⟩ :=
            parse_client_folderC_total cfg.client_patterns _ hc
          rw [hv]
          dsimp only
          split
          · exact ⟨_, rfl⟩
          · cases hdrop : (path.drop root.length).drop 1 with
            | nil => exact ⟨_, rfl⟩
            | cons second tl =>
              dsimp only
              obtain ⟨w, hw⟩ :=
                parse_second_levelC_total cfg.year_pattern
                  cfg.special_folders second hy1 hy2
              rw [hw]
              exact ⟨_, rfl⟩
    · exact ⟨_, rfl⟩
  · intro r hr
    unfold parseC at hr
    dsimp only at hr
    split at hr
    · split at hr
      · cases hr
        exact ⟨fun _ => ⟨_, rfl, by decide⟩, fun hv => by simp at hv⟩
      · split at hr
        · cases hr
          exact ⟨fun _ => ⟨_, rfl, append_ne_empty _ _ (by decide)⟩,
            fun hv => by simp at hv⟩
        · split at hr
          · cases hr
          · rename_i code name ctype heq
            split at hr
            · cases hr
              exact ⟨fun _ => ⟨_, rfl, append_ne_empty _ _ (by decide)⟩,
                fun hv => by simp at hv⟩
            · rename_i hfal
              split at hr
              · cases hr
              · cases hr
                refine ⟨fun hv => by simp at hv, fun _ => ⟨rfl, ?_⟩⟩
                cases code with
                | none => simp [pyFalsyCapture] at hfal
                | some l => rfl
    · cases hr
      exact ⟨fun _ => ⟨_, rfl, by decide⟩, fun hv => by simp at hv⟩

/-- Instance of `parseC_total_on_group_configs` at the default
configuration and a concrete path: the call returns (no exception). -/
theorem parseC_total_on_group_configs_witness :
    ∃ r, parseC defaultRegexCfg defaultRoot
      (defaultRoot ++ ["1002_Doe, Jane", "2024", "W-2 2024.pdf"]) = .ok r :=
  (parseC_total_on_group_configs defaultRegexCfg defaultRoot
    (defaultRoot ++ ["1002_Doe, Jane", "2024", "W-2 2024.pdf"])
    (by decide) (by decide) default_year_participates).2.1

/-- On the default configuration the regex-level parser and the
default-pattern parser agree at the specification's scenario paths
(valid individual/year file, permanent folder, invalid client folder,
skip-listed shortcut, path outside the root). -/
theorem parseC_default_agrees_on_scenarios :
    parseC defaultRegexCfg defaultRoot
        (defaultRoot ++ ["1002_Doe, Jane", "2024", "W-2 2024.pdf"]) =
      .ok (parse defaultParsing defaultRoot
        (defaultRoot ++ ["1002_Doe, Jane", "2024", "W-2 2024.pdf"])) ∧
    parseC defaultRegexCfg defaultRoot
        (defaultRoot ++ ["1001_Smith", "Permanent", "S-Corp Election.pdf"]) =
      .ok (parse defaultParsing defaultRoot
        (defaultRoot ++ ["1001_Smith", "Permanent", "S-Corp Election.pdf"])) ∧
    parseC defaultRegexCfg defaultRoot
        (defaultRoot ++ ["BadFolder", "2024", "x.pdf"]) =
      .ok (parse defaultParsing defaultRoot
        (defaultRoot ++ ["BadFolder", "2024", "x.pdf"])) ∧
    parseC defaultRegexCfg defaultRoot
        (defaultRoot ++ ["1001_Client", "2010_Business.lnk"]) =
      .ok (parse defaultParsing defaultRoot
        (defaultRoot ++ ["1001_Client", "2010_Business.lnk"])) ∧
    parseC defaultRegexCfg defaultRoot ["foo"] =
      .ok (parse defaultParsing defaultRoot ["foo"]) := by
  exact ⟨rfl, rfl, rfl, rfl, rfl⟩

end Lecpa
